import Mathlib

/-!
Verification development for the dbfs FUSE driver (`src/source/sqlfs.cpp`).

Paths, file names and query texts are modelled as lists of characters
(`Str`).  Stateful operations are modelled by explicit state passing over a
small record of the backing store (files, open descriptors, and an event
trace recording the order of the side effects the driver performs).
External collaborators (the SQL query executor, the custom-query executor,
the server registry, the kernel's choice of how many bytes a `pwrite`
consumes) enter as explicit parameters, so every definition stays
executable and every concrete run can be evaluated by `decide`.

Functions that live in this repository but outside `src/` (the path
splitter, the dump-path translator, the `IsDbfsFile` classifier, the
custom-query directory helpers, the reserved folder-name constant) are
modelled from the specification and carry a doc comment saying so.
-/

abbrev Str := List Char

/-- Shorthand turning a string literal into the `List Char` representation
used throughout the model. -/
def str (s : String) : Str := s.data

/-- Boolean test that `pat` is a prefix of `s` (character-by-character),
the building block for the models of `std::string::find` and `strstr`. -/
def isPre : Str → Str → Bool
  | [], _ => true
  | _ :: _, [] => false
  | a :: as, b :: bs => a == b && isPre as bs

/-- Model of `std::string::find(pat)` / C `strstr`: index of the first
occurrence of `pat` in `s`, or `none`. -/
def findSub (pat : Str) : Str → Option Nat
  | [] => if isPre pat [] then some 0 else none
  | c :: rest =>
    if isPre pat (c :: rest) then some 0
    else (findSub pat rest).map (· + 1)

/-- Model of the C test `strstr(hay, needle) != NULL`. -/
def strstrB (hay needle : Str) : Bool := (findSub needle hay).isSome

/-- The proposition that `pat` occurs in `s` at index `i`. -/
def occursAt (pat s : Str) (i : Nat) : Prop := isPre pat (s.drop i) = true

instance (pat s : Str) (i : Nat) : Decidable (occursAt pat s i) := by
  unfold occursAt; exact inferInstance

/-- Splitter helper: cut a character list at every separator. -/
def splitAux (sep : Char) : Str → Str → List Str
  | [], acc => [acc.reverse]
  | c :: rest, acc =>
    if c == sep then acc.reverse :: splitAux sep rest []
    else splitAux sep rest (c :: acc)

/-- Modelled from the spec: the repository's `Split(path, '/')` helper
(defined outside `src/`) — "split the path into `/`-delimited segments";
empty segments are dropped so that the leading `/` of a FUSE path does not
produce an empty segment 0 ("Segment 0 is the server name"). -/
def Split (s : Str) : List Str := (splitAux '/' s []).filter (fun t => !t.isEmpty)

theorem isPre_self_append (l t : Str) : isPre l (l ++ t) = true := by
  induction l with
  | nil => rfl
  | cons c cs ih => simp [isPre, ih]

theorem isPre_nil (s : Str) : isPre [] s = true := by cases s <;> rfl

theorem findSub_pos (pat s : Str) (i : Nat) (h : findSub pat s = some i) :
    occursAt pat s i ∧ ∀ j, j < i → ¬ occursAt pat s j := by
  induction s generalizing i with
  | nil =>
    unfold findSub at h
    by_cases hp : isPre pat [] = true
    · simp [hp] at h
      subst h
      exact ⟨hp, by omega⟩
    · simp [hp] at h
  | cons c rest ih =>
    unfold findSub at h
    by_cases hp : isPre pat (c :: rest) = true
    · simp [hp] at h
      subst h
      exact ⟨hp, by omega⟩
    · simp [hp] at h
      obtain ⟨i', hi', rfl⟩ := h
      obtain ⟨h1, h2⟩ := ih i' hi'
      refine ⟨h1, ?_⟩
      intro j hj
      cases j with
      | zero => simpa [occursAt] using hp
      | succ j' =>
        have := h2 j' (by omega)
        simpa [occursAt] using this

theorem findSub_none (pat s : Str) (h : findSub pat s = none) :
    ∀ j, ¬ occursAt pat s j := by
  induction s with
  | nil =>
    unfold findSub at h
    by_cases hp : isPre pat [] = true
    · simp [hp] at h
    · intro j
      cases j with
      | zero => simpa [occursAt] using hp
      | succ j' =>
        simp only [occursAt, List.drop_nil]
        simpa [occursAt] using hp
  | cons c rest ih =>
    unfold findSub at h
    by_cases hp : isPre pat (c :: rest) = true
    · simp [hp] at h
    · simp [hp] at h
      intro j
      cases j with
      | zero => simpa [occursAt] using hp
      | succ j' =>
        have := ih h j'
        simpa [occursAt] using this

theorem findSub_isSome (pat s : Str) (i : Nat) (h : occursAt pat s i) :
    (findSub pat s).isSome = true := by
  cases hf : findSub pat s with
  | some k => rfl
  | none => exact absurd h (findSub_none pat s hf i)

theorem splitAux_token_occurs (sep : Char) (s : Str) (acc : Str) (t : Str)
    (ht : t ∈ splitAux sep s acc) :
    ∃ i, occursAt t (acc.reverse ++ s) i := by
  induction s generalizing acc with
  | nil =>
    simp [splitAux] at ht
    subst ht
    exact ⟨0, by simpa [occursAt] using isPre_self_append acc.reverse []⟩
  | cons c rest ih =>
    unfold splitAux at ht
    by_cases hc : (c == sep) = true
    · simp [hc] at ht
      rcases ht with rfl | ht
      · exact ⟨0, by simpa [occursAt] using isPre_self_append acc.reverse (c :: rest)⟩
      · obtain ⟨i, hi⟩ := ih [] ht
        refine ⟨acc.reverse.length + 1 + i, ?_⟩
        simp only [occursAt] at hi ⊢
        rw [List.drop_append_eq_append_drop]
        have h1 : List.drop (acc.reverse.length + 1 + i) acc.reverse = [] :=
          List.drop_eq_nil_of_le (by omega)
        have h2 : acc.reverse.length + 1 + i - acc.reverse.length = i + 1 := by omega
        rw [h1, h2, List.nil_append, List.drop_succ_cons]
        simpa using hi
    · simp [hc] at ht
      obtain ⟨i, hi⟩ := ih (c :: acc) ht
      refine ⟨i, ?_⟩
      simpa [List.reverse_cons, List.append_assoc] using hi

theorem split_token_strstr (path t : Str) (ht : t ∈ Split path) :
    strstrB path t = true := by
  have hmem : t ∈ splitAux '/' path [] := by
    have := List.mem_of_mem_filter ht
    simpa using this
  obtain ⟨i, hi⟩ := splitAux_token_occurs '/' path [] t hmem
  simp only [List.reverse_nil, List.nil_append] at hi
  unfold strstrB
  exact findSub_isSome t path i hi

/-! ## Constants and classification -/

/-- Modelled from the spec: the reserved custom-query folder name constant
`CUSTOM_QUERY_FOLDER_NAME` (defined outside `src/`); the exact spelling is
immaterial to every claim, `customQueries` is used as a stand-in. -/
def CUSTOM_QUERY_FOLDER_NAME : Str := str "customQueries"

/-- The backing ("dump") root directory used by the model. -/
def DUMP_ROOT : Str := str "/dump"

/-- Modelled from the spec: `CalculateDumpPath` (defined outside `src/`) —
"a pure structural substitution of the mount's backing root for the
external root". -/
def CalculateDumpPath (path : Str) : Str := DUMP_ROOT ++ path

/-- The virtual-path classification of the spec (§4.2). -/
inductive VKind where
  | Root
  | ServerRoot
  | MetadataFile
  | CustomQueryDir
  | CustomQueryFile
  deriving DecidableEq, Repr

/-- Modelled from the spec: `classify(externalPath)` of §4.2.  Segment 0 is
the server name; if segment 1 equals the reserved custom-query folder name
then 2 segments give `CustomQueryDir` and ≥3 give `CustomQueryFile`;
otherwise ≥2 segments give `MetadataFile`. -/
def classify (path : Str) : VKind :=
  match Split path with
  | [] => .Root
  | [_] => .ServerRoot
  | _ :: seg1 :: rest =>
    if seg1 = CUSTOM_QUERY_FOLDER_NAME then
      if rest.isEmpty then .CustomQueryDir else .CustomQueryFile
    else .MetadataFile

/-- Modelled from the spec: `IsDbfsFile` (defined outside `src/`) — true
exactly for the two classes of virtual files the ContentMaterializer
handles, `MetadataFile` and `CustomQueryFile` (§4.4). -/
def IsDbfsFile (path : Str) : Bool :=
  match classify path with
  | .MetadataFile => true
  | .CustomQueryFile => true
  | _ => false

/-! ## The DMV query builder (from `GetDmvFileContent`) -/

/-- The two response formats of `enum FileFormat`. -/
inductive FileFormat where
  | TYPE_TSV
  | TYPE_JSON
  deriving DecidableEq, Repr

/-- A single-quote character, built numerically so the query text below
can contain it. -/
def SQUOTE : Char := Char.ofNat 39

/-- The suffix `.json` that `GetDmvFileContent` searches for. -/
def JSON_EXT : Str := str ".json"

/-- `tempString1` of `GetDmvFileContent`. -/
def QUERY_PRE : Str := str "SELECT * FROM [master].[sys].["

/-- `tempString2` of `GetDmvFileContent` in the JSON case. -/
def QUERY_POST_JSON : Str :=
  str "] FOR JSON AUTO, ROOT(" ++ [SQUOTE] ++ str "info" ++ [SQUOTE] ++ str ")"

/-- `tempString2` of `GetDmvFileContent` in the tabular case. -/
def QUERY_POST_TSV : Str := str "]"

/-- The query-building logic of `GetDmvFileContent`
(`src/source/sqlfs.cpp:688-710`): `filename.find(".json")`; when found,
the name is truncated with `substr(0, found)` and the JSON template is
used, otherwise the tabular template. -/
def dmvQueryOfFilename (filename : Str) : Str × FileFormat :=
  match findSub JSON_EXT filename with
  | some found => (QUERY_PRE ++ filename.take found ++ QUERY_POST_JSON, .TYPE_JSON)
  | none => (QUERY_PRE ++ filename ++ QUERY_POST_TSV, .TYPE_TSV)

/-- The query the claim C1 prescribes, written from the spec's words: the
base name is segment 1 "with a trailing `.json` suffix stripped if
present, and `format = Json` iff that suffix was present, else
`Tabular`". -/
def specDmvQuery (filename : Str) : Str × FileFormat :=
  if isPre JSON_EXT.reverse filename.reverse then
    (QUERY_PRE ++ filename.take (filename.length - JSON_EXT.length) ++ QUERY_POST_JSON,
      .TYPE_JSON)
  else
    (QUERY_PRE ++ filename ++ QUERY_POST_TSV, .TYPE_TSV)

/-! ## The backing-store state, descriptors and the event trace -/

/-- Byte content of a backing file. -/
abbrev Content := List Nat

/-- Events recording the order of the driver's side effects. -/
inductive Ev where
  | evOpen (path : Str) (fd : Int)
  | evClose (fd : Int)
  | evTruncate (path : Str) (size : Nat)
  | evPwrite (fd : Int) (len : Nat)
  | evQuery (q : Str)
  | evCustomQuery (queryFile outPath : Str)
  deriving DecidableEq, Repr

/-- Association-list lookup (first binding wins), the model of a map. -/
def alookup {κ α : Type} [DecidableEq κ] : List (κ × α) → κ → Option α
  | [], _ => none
  | (k, v) :: rest, key => if k = key then some v else alookup rest key

/-- Association-list update-or-insert. -/
def aset {κ α : Type} [DecidableEq κ] : List (κ × α) → κ → α → List (κ × α)
  | [], k, v => [(k, v)]
  | (k', v') :: rest, k, v =>
    if k' = k then (k, v) :: rest else (k', v') :: aset rest k v

/-- Association-list erase of the first binding of a key. -/
def aerase {κ α : Type} [DecidableEq κ] : List (κ × α) → κ → List (κ × α)
  | [], _ => []
  | (k', v') :: rest, k => if k' = k then rest else (k', v') :: aerase rest k

/-- The driver-visible state: backing files, the table of open native
descriptors, the next fresh descriptor number, and the event trace. -/
structure St where
  files : List (Str × Content)
  fdTable : List (Int × Str)
  nextFd : Nat
  trace : List Ev
  deriving DecidableEq, Repr

/-- The `fuse_file_info` fields the driver uses: the caller-supplied open
flags and the stored native handle `fh`. -/
structure Fi where
  flags : Int
  fh : Int
  deriving DecidableEq, Repr

/-- A registered server's connection record (`class ServerInfo`). -/
structure SrvInfo where
  m_hostname : Str
  m_username : Str
  m_password : Str
  m_customQueriesPath : Str
  deriving DecidableEq, Repr

/-- Modelled from the spec: `GetServerInfo` — the read-only server
registry lookup (`lookup(name) → ServerEntry | absent`). -/
def GetServerInfo (reg : List (Str × SrvInfo)) (name : Str) : Option SrvInfo :=
  alookup reg name

/-- Undefined or aborting executions of the C++ code: dereferencing a null
pointer, a failed `assert`, an out-of-bounds `std::vector` index. -/
inductive UB where
  | nullDeref
  | assertFailed
  | oobIndex
  deriving DecidableEq, Repr

/-- Result of a modelled operation: either a value or an undefined (or
aborting) execution of the C++ code. -/
inductive Res (α : Type) where
  | ok (a : α)
  | ub (u : UB)
  deriving DecidableEq, Repr

/-- Errno `EPERM`: operation not permitted. -/
def errPerm : Int := 1

/-- Errno `ENOENT`: no such file or directory. -/
def errNoEnt : Int := 2

/-- Errno `EIO`: input/output error. -/
def errIo : Int := 5

/-- Errno `EBADF`: bad file descriptor. -/
def errBadF : Int := 9

/-- Errno `EEXIST`: file exists. -/
def errExist : Int := 17

/-- Errno `EOPNOTSUPP`: operation not supported. -/
def errOpNotSupp : Int := 95

/-- Native `open` without `O_CREAT`: succeeds with a fresh descriptor when
the backing file exists, fails with `-1` (errno `ENOENT`) otherwise. -/
def sysOpen (st : St) (p : Str) : Int × St :=
  match alookup st.files p with
  | some _ =>
    let fd : Int := (st.nextFd : Int)
    (fd, { st with fdTable := (fd, p) :: st.fdTable, nextFd := st.nextFd + 1,
                   trace := st.trace ++ [.evOpen p fd] })
  | none => (-1, st)

/-- Native `close`: succeeds on a live descriptor, fails with `-1` (errno
`EBADF`) otherwise. -/
def sysClose (st : St) (fd : Int) : Int × St :=
  match alookup st.fdTable fd with
  | some _ => (0, { st with fdTable := aerase st.fdTable fd,
                            trace := st.trace ++ [.evClose fd] })
  | none => (-1, st)

/-- Positioned overwrite of `buf` into `c` at offset `off`, zero-padding a
gap, as POSIX `pwrite` does on a regular file. -/
def pwriteContent (c : Content) (buf : Content) (off : Nat) : Content :=
  (c.take off ++ List.replicate (off - c.length) 0 ++ buf) ++ c.drop (off + buf.length)

/-- Native `pwrite`.  POSIX lets the kernel consume fewer bytes than
requested; the environment's choice is the parameter `pwRet`: `-1` means
the call fails (errno `EIO` in this model), otherwise
`min pwRet (length buf)` bytes are written and returned. -/
def sysPwrite (st : St) (fd : Int) (buf : Content) (off : Nat) (pwRet : Int) : Int × St :=
  match alookup st.fdTable fd with
  | none => (-1, st)
  | some p =>
    if pwRet = -1 then (-1, st)
    else
      let n := min pwRet.toNat buf.length
      match alookup st.files p with
      | some c =>
        ((n : Int), { st with files := aset st.files p (pwriteContent c (buf.take n) off),
                              trace := st.trace ++ [.evPwrite fd n] })
      | none => (-1, st)

/-- Native `pread` of `size` bytes at `offset` through a live descriptor. -/
def sysPread (st : St) (fd : Int) (size offset : Nat) : Int × Content :=
  match alookup st.fdTable fd with
  | none => (-1, [])
  | some p =>
    match alookup st.files p with
    | some c =>
      let bytes := (c.drop offset).take size
      ((bytes.length : Int), bytes)
    | none => (-1, [])

/-- The query texts recorded in a trace, in the order they were sent. -/
def sentQueries : List Ev → List Str
  | [] => []
  | .evQuery q :: rest => q :: sentQueries rest
  | _ :: rest => sentQueries rest

/-! ## Descriptor-resolution helpers (`sqlfs.cpp:577-628`) -/

/-- `GetFileDescriptorForPath` (`src/source/sqlfs.cpp:577-602`): the code
tests `if (!fi)` and, in that branch, evaluates `fi->flags` — a null
pointer dereference, modelled as undefined behaviour; otherwise it returns
the stored handle `fi->fh`. -/
def GetFileDescriptorForPath (st : St) (path : Str) (fi : Option Fi) : Res Int :=
  match fi with
  | none => .ub .nullDeref
  | some f =>
    let _ := st
    let _ := path
    .ok f.fh

/-- `CloseFileDesciptorIfOpened` (`src/source/sqlfs.cpp:615-628`): closes
`fd` only when the `fuse_file_info` pointer is null. -/
def CloseFileDesciptorIfOpened (st : St) (fi : Option Fi) (fd : Int) : St :=
  match fi with
  | none => (sysClose st fd).2
  | some _ => st

/-! ## Passthrough truncate (`sqlfs.cpp:522-537`) -/

/-- `TruncateLocalImpl` (`src/source/sqlfs.cpp:522-537`): native
`truncate` on the dump path; on native failure the errno is negated and
returned (in this model the only native failure is a missing file,
`-errNoEnt`). -/
def TruncateLocalImpl (st : St) (path : Str) (size : Nat) : Int × St :=
  let fpath := CalculateDumpPath path
  match alookup st.files fpath with
  | some c =>
    (0, { st with files := aset st.files fpath (c.take size),
                  trace := st.trace ++ [.evTruncate fpath size] })
  | none => (-errNoEnt, st)

/-! ## Content materialization (`sqlfs.cpp:649-850`) -/

/-- `GetDmvFileContent` (`src/source/sqlfs.cpp:649-742`).  Opens its own
`O_WRONLY` descriptor on the dump path, tokenises the virtual path
(`assert(tokens.size() > 1)`), builds the DMV query from segment 1,
executes it (outcome supplied by the environment as `qerr`/`resp`; the
`GetServerDetails` registry lookup only feeds connection details to the
executor and does not affect the modelled outcomes), and on success
`pwrite`s the response at offset 0, treating only a `-1` return as an
error; the descriptor is closed on every path out of the branch.
`pwRet` is the kernel's choice of `pwrite` result (see `sysPwrite`). -/
def GetDmvFileContent (st : St) (path : Str) (qerr : Int) (resp : Content)
    (pwRet : Int) : Res (Int × St) :=
  let dumpPath := CalculateDumpPath path
  let (fd, st1) := sysOpen st dumpPath
  if fd ≠ -1 then
    match Split path with
    | _t0 :: t1 :: _ =>
      let query := (dmvQueryOfFilename t1).1
      let st2 := { st1 with trace := st1.trace ++ [.evQuery query] }
      if qerr = 0 then
        let (wr, st3) := sysPwrite st2 fd resp 0 pwRet
        let error : Int := if wr = -1 then -errIo else 0
        .ok (error, (sysClose st3 fd).2)
      else
        .ok (qerr, (sysClose st2 fd).2)
    | _ => .ub .assertFailed
  else
    .ok (-errNoEnt, st1)

/-- The tail of `OpenLocalImpl` (`src/source/sqlfs.cpp:843-849`):
`if (error && fd != -1) { close(fd); fi->fh = -1; }` then return. -/
def openFinish (error : Int) (fd : Int) (fi : Fi) (st : St) : Int × Fi × St :=
  if error ≠ 0 ∧ fd ≠ -1 then (error, { fi with fh := -1 }, (sysClose st fd).2)
  else (error, fi, st)

/-- `OpenLocalImpl` (`src/source/sqlfs.cpp:760-850`).  Opens the backing
file with the caller's flags and stores the descriptor in `fi`; for a
`dbfs` file it either (custom-query branch, guarded by
`strstr(path, CUSTOM_QUERY_FOLDER_NAME)`) resolves the server's
custom-query source directory and delegates to `ExecuteCustomQuery`
whose result `cqRes` is discarded by the code, or (metadata branch) calls
`GetDmvFileContent`.  `qerr`, `resp`, `pwRet` and `cqRes` are the
environment-supplied outcomes of the external collaborators. -/
def OpenLocalImpl (reg : List (Str × SrvInfo)) (st : St) (path : Str) (fi : Fi)
    (qerr : Int) (resp : Content) (pwRet : Int) (cqRes : Int) : Res (Int × Fi × St) :=
  let fpath := CalculateDumpPath path
  let (fd, st1) := sysOpen st fpath
  let error : Int := if fd = -1 then -errNoEnt else 0
  let fi1 := if fd = -1 then fi else { fi with fh := fd }
  if error = 0 then
    if IsDbfsFile path then
      if strstrB path CUSTOM_QUERY_FOLDER_NAME then
        match Split path with
        | t0 :: t1 :: t2 :: _ =>
          if t1 = CUSTOM_QUERY_FOLDER_NAME then
            match GetServerInfo reg t0 with
            | some si =>
              if si.m_customQueriesPath ≠ [] then
                let queryFilePath := si.m_customQueriesPath ++ str "/" ++ t2
                let _ := cqRes
                let st2 := { st1 with
                  trace := st1.trace ++ [.evCustomQuery queryFilePath fpath] }
                .ok (openFinish 0 fd fi1 st2)
              else .ok (openFinish 0 fd fi1 st1)
            | none => .ok (openFinish 0 fd fi1 st1)
          else .ub .assertFailed
        | [_, _] => .ub .oobIndex
        | _ => .ub .assertFailed
      else
        match GetDmvFileContent st1 path qerr resp pwRet with
        | .ub u => .ub u
        | .ok (e, st2) => .ok (openFinish e fd fi1 st2)
    else .ok (openFinish 0 fd fi1 st1)
  else .ok (openFinish error fd fi1 st1)

/-! ## read / write / fallocate (`sqlfs.cpp:861-933, 1035-1063`) -/

/-- `ReadLocalImpl` (`src/source/sqlfs.cpp:861-887`): resolve a
descriptor via `GetFileDescriptorForPath`, positioned read, close the
descriptor if this call opened it. -/
def ReadLocalImpl (st : St) (path : Str) (size offset : Nat) (fi : Option Fi) :
    Res (Int × Content × St) :=
  match GetFileDescriptorForPath st path fi with
  | .ub u => .ub u
  | .ok fd =>
    if fd ≠ -1 then
      let (r, bytes) := sysPread st fd size offset
      let result := if r = -1 then -errIo else r
      .ok (result, bytes, CloseFileDesciptorIfOpened st fi fd)
    else .ok (-1, [], st)

/-- `WriteLocalImpl` (`src/source/sqlfs.cpp:898-933`): a `dbfs` file is
rejected with `-EPERM` before any descriptor is resolved; otherwise the
write goes through to the backing file. -/
def WriteLocalImpl (st : St) (path : Str) (buf : Content) (offset : Nat)
    (fi : Option Fi) (pwRet : Int) : Res (Int × St) :=
  if IsDbfsFile path then
    .ok (-errPerm, st)
  else
    match GetFileDescriptorForPath st path fi with
    | .ub u => .ub u
    | .ok fd =>
      if fd ≠ -1 then
        let (wr, st1) := sysPwrite st fd buf offset pwRet
        let result := if wr = -1 then -errIo else wr
        .ok (result, CloseFileDesciptorIfOpened st1 fi fd)
      else .ok (0, st)

/-- `FallocateLocalImpl` (`src/source/sqlfs.cpp:1035-1063`): non-zero
`mode` is rejected with `-EOPNOTSUPP`, otherwise `posix_fallocate`
extends the backing file to at least `offset + len` bytes. -/
def FallocateLocalImpl (st : St) (path : Str) (mode : Int) (offset len : Nat)
    (fi : Option Fi) : Res (Int × St) :=
  match GetFileDescriptorForPath st path fi with
  | .ub u => .ub u
  | .ok fd =>
    if fd ≠ -1 then
      if mode ≠ 0 then .ok (-errOpNotSupp, CloseFileDesciptorIfOpened st fi fd)
      else
        match alookup st.fdTable fd with
        | some p =>
          match alookup st.files p with
          | some c =>
            let c' := c ++ List.replicate (offset + len - c.length) 0
            let st1 := { st with files := aset st.files p c' }
            .ok (0, CloseFileDesciptorIfOpened st1 fi fd)
          | none => .ok (-errBadF, CloseFileDesciptorIfOpened st fi fd)
        | none => .ok (-errBadF, CloseFileDesciptorIfOpened st fi fd)
    else .ok (0, st)

/-! ## release (`sqlfs.cpp:975-1001`) -/

/-- `ReleaseLocalImpl` (`src/source/sqlfs.cpp:975-1001`): for a `dbfs`
file, truncate the backing file to size 0 (the returned value is compared
against `-1`); then, in all cases, `result` is overwritten with the
outcome of `close(fi->fh)`. -/
def ReleaseLocalImpl (st : St) (path : Str) (fi : Fi) : Int × St :=
  let (r0, st1) :=
    if IsDbfsFile path then
      let (r, st') := TruncateLocalImpl st path 0
      ((if r = -1 then -errIo else r), st')
    else (0, st)
  let _ := r0
  let (c, st2) := sysClose st1 fi.fh
  let result := if c = -1 then -errBadF else c
  (result, st2)

/-! ## Directory synthesis (`sqlfs.cpp:118-218`) -/

/-- State of one backing custom-query directory and its open stream: the
regular files it contains and the stream position of the open `DIR*`. -/
structure DirSt where
  backingFiles : List (Str × Content)
  streamPos : Nat
  deriving DecidableEq, Repr

/-- Directory-reconciliation events. -/
inductive DirEv where
  | evUnlink (name : Str)
  | evRewind
  | evCreate (name : Str)
  deriving DecidableEq, Repr

/-- Result of `OpendirLocalImpl`: a return value with the resulting
directory state, or an aborting execution together with the state at the
moment of the abort. -/
inductive OpendirResult where
  | ok (ret : Int) (d : DirSt) (events : List DirEv)
  | ub (u : UB) (d : DirSt) (events : List DirEv)
  deriving DecidableEq, Repr

/-- Modelled from the spec: `RemoveCustomQueriesOutputFiles` (defined
outside `src/`) — "delete every regular file currently present in the
backing custom-query directory". -/
def RemoveCustomQueriesOutputFiles (d : DirSt) : DirSt × List DirEv :=
  ({ d with backingFiles := [] }, d.backingFiles.map (fun f => DirEv.evUnlink f.1))

/-- Native `rewinddir`: reset the stream position to the start. -/
def rewindDir (d : DirSt) : DirSt := { d with streamPos := 0 }

/-- Modelled from the spec: `CreateCustomQueriesOutputFiles` (defined
outside `src/`) — "for every entry found in the server's configured
custom-query source directory, create a same-named zero-length placeholder
file in the backing custom-query directory"; `sourceNames` is the outcome
of the external directory-listing collaborator. -/
def CreateCustomQueriesOutputFiles (sourceNames : List Str) (d : DirSt) :
    DirSt × List DirEv :=
  ({ d with backingFiles := d.backingFiles ++ sourceNames.map (fun nm => (nm, ([] : Content))) },
   sourceNames.map DirEv.evCreate)

/-- `OpendirLocalImpl` (`src/source/sqlfs.cpp:118-172`).  After a
successful native `opendir`, the custom-query branch is guarded by
`strstr(path, CUSTOM_QUERY_FOLDER_NAME)`; it deletes the directory's
regular files, rewinds the stream, tokenises the path
(`assert(tokens.size() > 1)`, then
`assert(strcmp(tokens[1], CUSTOM_QUERY_FOLDER_NAME) == 0)`), and creates
one placeholder per source-directory entry. -/
def OpendirLocalImpl (path : Str) (dirExists : Bool) (sourceNames : List Str)
    (d : DirSt) : OpendirResult :=
  if dirExists then
    if strstrB path CUSTOM_QUERY_FOLDER_NAME then
      let (d1, ev1) := RemoveCustomQueriesOutputFiles d
      let d2 := rewindDir d1
      let ev2 := ev1 ++ [DirEv.evRewind]
      match Split path with
      | _t0 :: t1 :: _ =>
        if t1 = CUSTOM_QUERY_FOLDER_NAME then
          let (d3, ev3) := CreateCustomQueriesOutputFiles sourceNames d2
          .ok 0 d3 (ev2 ++ ev3)
        else .ub .assertFailed d2 ev2
      | _ => .ub .assertFailed d2 ev2
    else .ok 0 d []
  else .ok (-errNoEnt) d []

/-- `ReaddirLocalImpl` (`src/source/sqlfs.cpp:183-218`): enumerate the
names of the live directory entries from the current stream position. -/
def ReaddirLocalImpl (d : DirSt) : List Str :=
  (d.backingFiles.map (fun f => f.1)).drop d.streamPos

/-! ## Mount startup (`sqlfs.cpp:1186-1218`) -/

/-- The directory tree seen by `InitializeSQLFs`: the set of directories
that currently exist. -/
structure InitSt where
  dirs : List Str
  deriving DecidableEq, Repr

/-- Native `mkdir`: fails with `-1` and errno `EEXIST` when the directory
already exists. -/
def sysMkdir (s : InitSt) (p : Str) : Int × Int × InitSt :=
  if p ∈ s.dirs then (-1, errExist, s)
  else (0, 0, { s with dirs := p :: s.dirs })

/-- Outcome of mount startup: the process either killed itself or started
serving. -/
inductive InitOutcome where
  | killed
  | started (s : InitSt)
  deriving DecidableEq, Repr

/-- `InitializeSQLFs` (`src/source/sqlfs.cpp:1186-1218`): create the dump
directory; `if (result == -1) { PrintMsg(...); KillSelf(); }` — the
process terminates on every `mkdir` failure, with no errno inspection;
otherwise the per-server `CreateDbfsFiles` loop runs (modelled abstractly
by the function `createDbfs`, since `CreateDbfsFiles` is defined outside
`src/`). -/
def InitializeSQLFs (dumpPath : Str) (createDbfs : InitSt → InitSt)
    (s : InitSt) : InitOutcome :=
  let (r, _e, s1) := sysMkdir s dumpPath
  if r = -1 then .killed
  else .started (createDbfs s1)

/-! ## Small lemmas about the model's primitives -/

theorem alookup_cons_self {κ α : Type} [DecidableEq κ] (k : κ) (v : α)
    (r : List (κ × α)) : alookup ((k, v) :: r) k = some v := by
  simp [alookup]

theorem aerase_cons_self {κ α : Type} [DecidableEq κ] (k : κ) (v : α)
    (r : List (κ × α)) : aerase ((k, v) :: r) k = r := by
  simp [aerase]

theorem sentQueries_append (a b : List Ev) :
    sentQueries (a ++ b) = sentQueries a ++ sentQueries b := by
  induction a with
  | nil => rfl
  | cons e rest ih => cases e <;> simp [sentQueries, ih]

theorem sentQueries_evOpen (p : Str) (fd : Int) : sentQueries [.evOpen p fd] = [] := rfl

theorem sentQueries_evClose (fd : Int) : sentQueries [.evClose fd] = [] := rfl

theorem sentQueries_evQuery (q : Str) : sentQueries [.evQuery q] = [q] := rfl

theorem sentQueries_evPwrite (fd : Int) (n : Nat) : sentQueries [.evPwrite fd n] = [] := rfl

theorem natCast_ne_negOne (n : Nat) : ((n : Int)) ≠ -1 := by omega

/-! ## Claim C1 -/

/-- State projection for `GetDmvFileContent` results. -/
def dmvStOf : Res (Int × St) → Option St
  | .ok (_, st) => some st
  | .ub _ => none

/-- A one-file backing store whose only file is the (empty) backing object
of `/srv/v.jsonx`. -/
def exC1St : St :=
  { files := [(CalculateDumpPath (str "/srv/v.jsonx"), [])],
    fdTable := [], nextFd := 0, trace := [] }

/-- C1 fails as stated: for the MetadataFile path `/srv/v.jsonx` the code
sends the JSON-wrapped query for the base name `v` (because
`GetDmvFileContent` truncates at the *first* occurrence of `.json`,
`filename.find(".json")`), while the claim prescribes the tabular query
for the unchanged name `v.jsonx` (no *trailing* `.json` suffix). -/
theorem C1_counterexample :
    ((dmvStOf (GetDmvFileContent exC1St (str "/srv/v.jsonx") 0 [1, 2, 3] 100)).map
        (fun st => sentQueries st.trace)) =
      some [(dmvQueryOfFilename (str "v.jsonx")).1] ∧
    (dmvQueryOfFilename (str "v.jsonx")).1 ≠ (specDmvQuery (str "v.jsonx")).1 ∧
    (dmvQueryOfFilename (str "v.jsonx")).2 = FileFormat.TYPE_JSON ∧
    (specDmvQuery (str "v.jsonx")).2 = FileFormat.TYPE_TSV := by decide

/-- Helper: when the backing file exists and the path has at least two
segments, `GetDmvFileContent` runs to completion (for every collaborator
outcome) and sends exactly one query, the one built by
`dmvQueryOfFilename` from segment 1. -/
theorem GetDmvFileContent_sendsQuery (st : St) (path s n : Str) (rest : List Str)
    (qerr : Int) (resp : Content) (pwRet : Int) (c : Content)
    (hsp : Split path = s :: n :: rest)
    (hex : alookup st.files (CalculateDumpPath path) = some c) :
    ∃ e st', GetDmvFileContent st path qerr resp pwRet = .ok (e, st') ∧
      sentQueries st'.trace = sentQueries st.trace ++ [(dmvQueryOfFilename n).1] := by
  have hfd : ((st.nextFd : Int)) ≠ -1 := natCast_ne_negOne st.nextFd
  simp only [GetDmvFileContent]
  rw [show sysOpen st (CalculateDumpPath path) =
        ((st.nextFd : Int),
          { st with fdTable := ((st.nextFd : Int), CalculateDumpPath path) :: st.fdTable,
                    nextFd := st.nextFd + 1,
                    trace := st.trace ++ [.evOpen (CalculateDumpPath path) (st.nextFd : Int)] })
      from by unfold sysOpen; rw [hex]]
  simp only [hfd, if_true, hsp, ite_not]
  by_cases hq : qerr = 0
  · by_cases hpw : pwRet = -1
    · simp only [hq, hpw, sysPwrite, sysClose, alookup_cons_self, aerase_cons_self,
        ite_true, ite_false, reduceIte]
      refine ⟨_, _, rfl, ?_⟩
      simp [sentQueries_append, sentQueries]
    · simp only [hq, hpw, sysPwrite, sysClose, alookup_cons_self, aerase_cons_self, hex,
        ite_true, ite_false, reduceIte, if_neg hpw]
      refine ⟨_, _, rfl, ?_⟩
      simp [sentQueries_append, sentQueries]
  · simp only [hq, sysClose, alookup_cons_self, aerase_cons_self, ite_true, ite_false,
      reduceIte, if_neg hq]
    refine ⟨_, _, rfl, ?_⟩
    simp [sentQueries_append, sentQueries]

/-- C1 (amended): for every open of a MetadataFile path
`<server>/<name>[...]`, the query sent to the server is
`SELECT * FROM [master].[sys].[<base>] FOR JSON AUTO, ROOT('info')` with
`<base>` equal to segment 1 truncated at the *first* occurrence of
`.json` when `.json` occurs anywhere in segment 1 (and the format is then
Json), and `SELECT * FROM [master].[sys].[<seg1>]` with the format
Tabular when `.json` does not occur in segment 1 at all. -/
theorem C1_amended (st : St) (path s n : Str) (rest : List Str) (qerr : Int)
    (resp : Content) (pwRet : Int) (c : Content)
    (hsp : Split path = s :: n :: rest)
    (hex : alookup st.files (CalculateDumpPath path) = some c) :
    ∃ e st', GetDmvFileContent st path qerr resp pwRet = .ok (e, st') ∧
      sentQueries st'.trace = sentQueries st.trace ++ [(dmvQueryOfFilename n).1] ∧
      ((∃ i, occursAt JSON_EXT n i ∧ (∀ j, occursAt JSON_EXT n j → i ≤ j) ∧
          dmvQueryOfFilename n = (QUERY_PRE ++ n.take i ++ QUERY_POST_JSON, .TYPE_JSON)) ∨
        ((∀ j, ¬ occursAt JSON_EXT n j) ∧
          dmvQueryOfFilename n = (QUERY_PRE ++ n ++ QUERY_POST_TSV, .TYPE_TSV))) := by
  have hchar :
      (∃ i, occursAt JSON_EXT n i ∧ (∀ j, occursAt JSON_EXT n j → i ≤ j) ∧
          dmvQueryOfFilename n = (QUERY_PRE ++ n.take i ++ QUERY_POST_JSON, .TYPE_JSON)) ∨
        ((∀ j, ¬ occursAt JSON_EXT n j) ∧
          dmvQueryOfFilename n = (QUERY_PRE ++ n ++ QUERY_POST_TSV, .TYPE_TSV)) := by
    cases hf : findSub JSON_EXT n with
    | some i =>
      left
      obtain ⟨h1, h2⟩ := findSub_pos JSON_EXT n i hf
      refine ⟨i, h1, ?_, by simp [dmvQueryOfFilename, hf]⟩
      intro j hj
      by_contra hlt
      exact h2 j (by omega) hj
    | none =>
      right
      exact ⟨findSub_none JSON_EXT n hf, by simp [dmvQueryOfFilename, hf]⟩
  obtain ⟨e, st', h1, h2⟩ :=
    GetDmvFileContent_sendsQuery st path s n rest qerr resp pwRet c hsp hex
  exact ⟨e, st', h1, h2, hchar⟩

/-- A one-file backing store for the C1 witness. -/
def exC1WSt : St :=
  { files := [(CalculateDumpPath (str "/srv/view.json"), [])],
    fdTable := [], nextFd := 0, trace := [] }

/-- Witness for `C1_amended` at the concrete MetadataFile path
`/srv/view.json`. -/
theorem C1_witness :
    ∃ e st', GetDmvFileContent exC1WSt (str "/srv/view.json") 0 [1, 2] 2 = .ok (e, st') ∧
      sentQueries st'.trace =
        sentQueries exC1WSt.trace ++ [(dmvQueryOfFilename (str "view.json")).1] ∧
      ((∃ i, occursAt JSON_EXT (str "view.json") i ∧
          (∀ j, occursAt JSON_EXT (str "view.json") j → i ≤ j) ∧
          dmvQueryOfFilename (str "view.json") =
            (QUERY_PRE ++ (str "view.json").take i ++ QUERY_POST_JSON, .TYPE_JSON)) ∨
        ((∀ j, ¬ occursAt JSON_EXT (str "view.json") j) ∧
          dmvQueryOfFilename (str "view.json") =
            (QUERY_PRE ++ str "view.json" ++ QUERY_POST_TSV, .TYPE_TSV))) :=
  C1_amended exC1WSt (str "/srv/view.json") (str "srv") (str "view.json") [] 0 [1, 2] 2 []
    (by decide) (by decide)

/-! ## Claim C2 -/

/-- The empty driver state. -/
def exSt0 : St := { files := [], fdTable := [], nextFd := 0, trace := [] }

/-- C2: every `write` call against a path classified `MetadataFile` or
`CustomQueryFile` returns `-EPERM`, for all offsets, buffer contents,
handle states and kernel write outcomes, and the backing store is
unchanged (no bytes are written). -/
theorem C2_write_permission_denied (st : St) (path : Str) (buf : Content)
    (offset : Nat) (fi : Option Fi) (pwRet : Int)
    (h : classify path = .MetadataFile ∨ classify path = .CustomQueryFile) :
    WriteLocalImpl st path buf offset fi pwRet = .ok (-errPerm, st) := by
  have hdb : IsDbfsFile path = true := by
    unfold IsDbfsFile
    rcases h with h | h <;> rw [h]
  unfold WriteLocalImpl
  simp [hdb]

/-- Witness for `C2_write_permission_denied` at the MetadataFile path
`/srv/view` with a non-empty buffer and no live handle. -/
theorem C2_witness :
    WriteLocalImpl exSt0 (str "/srv/view") [5, 6, 7] 3 none 3 = .ok (-errPerm, exSt0) :=
  C2_write_permission_denied exSt0 (str "/srv/view") [5, 6, 7] 3 none 3 (Or.inl (by decide))

/-! ## Claim C3 -/

theorem alookup_aset_self {κ α : Type} [DecidableEq κ] (l : List (κ × α)) (k : κ)
    (v : α) : alookup (aset l k v) k = some v := by
  induction l with
  | nil => simp [aset, alookup]
  | cons kv r ih =>
    obtain ⟨k', v'⟩ := kv
    by_cases h : k' = k
    · simp [aset, h, alookup]
    · simp [aset, h, alookup, ih]

theorem sysClose_isSome (st : St) (fd : Int)
    (h : (alookup st.fdTable fd).isSome = true) :
    sysClose st fd = (0, { st with fdTable := aerase st.fdTable fd,
                                   trace := st.trace ++ [.evClose fd] }) := by
  unfold sysClose
  cases hl : alookup st.fdTable fd with
  | none => rw [hl] at h; simp at h
  | some q => rfl

theorem TruncateLocalImpl_zero (st : St) (path : Str)
    (h : (alookup st.files (CalculateDumpPath path)).isSome = true) :
    TruncateLocalImpl st path 0 =
      (0, { st with files := aset st.files (CalculateDumpPath path) [],
                    trace := st.trace ++ [.evTruncate (CalculateDumpPath path) 0] }) := by
  unfold TruncateLocalImpl
  cases hl : alookup st.files (CalculateDumpPath path) with
  | none => rw [hl] at h; simp at h
  | some c => simp [hl]

theorem isDbfsFile_split (path : Str) (h : IsDbfsFile path = true) :
    ∃ t0 t1 rest, Split path = t0 :: t1 :: rest := by
  unfold IsDbfsFile classify at h
  rcases hs : Split path with _ | ⟨a, _ | ⟨b, r⟩⟩ <;> rw [hs] at h
  · simp at h
  · simp at h
  · exact ⟨a, b, r, rfl⟩

/-- C3: releasing a `MetadataFile`/`CustomQueryFile` path truncates the
backing object to length 0 strictly before closing the held descriptor
(first conjunct: final length is 0 and the truncate event precedes the
close event in the trace); releasing any other path only closes the
descriptor and leaves the backing store untouched (second conjunct); and
any subsequent open of such a virtual path re-executes its query — the
materializer appends exactly one fresh query event on every run (third
conjunct). -/
theorem C3_release_truncates (st : St) (path : Str) (fi : Fi) (p : Str)
    (hfd : alookup st.fdTable fi.fh = some p) :
    (∀ c, IsDbfsFile path = true →
        alookup st.files (CalculateDumpPath path) = some c →
        alookup (ReleaseLocalImpl st path fi).2.files (CalculateDumpPath path) = some [] ∧
        (ReleaseLocalImpl st path fi).2.trace =
          st.trace ++ [.evTruncate (CalculateDumpPath path) 0, .evClose fi.fh]) ∧
    (IsDbfsFile path = false →
        (ReleaseLocalImpl st path fi).2.files = st.files ∧
        (ReleaseLocalImpl st path fi).2.trace = st.trace ++ [.evClose fi.fh]) ∧
    (∀ (st₂ : St) (qerr : Int) (resp : Content) (pwRet : Int) (c₂ : Content),
        IsDbfsFile path = true →
        alookup st₂.files (CalculateDumpPath path) = some c₂ →
        ∃ q e st₃, GetDmvFileContent st₂ path qerr resp pwRet = .ok (e, st₃) ∧
          sentQueries st₃.trace = sentQueries st₂.trace ++ [q]) := by
  have hfd' : (alookup st.fdTable fi.fh).isSome = true := by rw [hfd]; rfl
  refine ⟨?_, ?_, ?_⟩
  · intro c hdb hex
    have hex' : (alookup st.files (CalculateDumpPath path)).isSome = true := by
      rw [hex]; rfl
    simp only [ReleaseLocalImpl, hdb, reduceIte, TruncateLocalImpl_zero st path hex',
      sysClose_isSome, hfd', Option.isSome_some]
    exact ⟨alookup_aset_self st.files (CalculateDumpPath path) [], by simp⟩
  · intro hdb
    simp only [ReleaseLocalImpl, hdb, Bool.false_eq_true, reduceIte,
      sysClose_isSome, hfd', Option.isSome_some]
    exact ⟨by simp, by simp⟩
  · intro st₂ qerr resp pwRet c₂ hdb hex2
    obtain ⟨t0, t1, rest, hs⟩ := isDbfsFile_split path hdb
    obtain ⟨e, st₃, h1, h2⟩ :=
      GetDmvFileContent_sendsQuery st₂ path t0 t1 rest qerr resp pwRet c₂ hs hex2
    exact ⟨(dmvQueryOfFilename t1).1, e, st₃, h1, h2⟩

/-- Backing store and descriptor table for the C3 witness: the metadata
file `/srv/view` is materialized (content `[9, 9]`) and held open as
descriptor 7. -/
def exC3St : St :=
  { files := [(CalculateDumpPath (str "/srv/view"), [9, 9])],
    fdTable := [(7, CalculateDumpPath (str "/srv/view"))], nextFd := 8, trace := [] }

/-- Witness for `C3_release_truncates` at the MetadataFile path
`/srv/view` held open as descriptor 7. -/
theorem C3_witness :
    (∀ c, IsDbfsFile (str "/srv/view") = true →
        alookup exC3St.files (CalculateDumpPath (str "/srv/view")) = some c →
        alookup (ReleaseLocalImpl exC3St (str "/srv/view") ⟨0, 7⟩).2.files
            (CalculateDumpPath (str "/srv/view")) = some [] ∧
        (ReleaseLocalImpl exC3St (str "/srv/view") ⟨0, 7⟩).2.trace =
          exC3St.trace ++ [.evTruncate (CalculateDumpPath (str "/srv/view")) 0,
            .evClose (⟨0, 7⟩ : Fi).fh]) ∧
    (IsDbfsFile (str "/srv/view") = false →
        (ReleaseLocalImpl exC3St (str "/srv/view") ⟨0, 7⟩).2.files = exC3St.files ∧
        (ReleaseLocalImpl exC3St (str "/srv/view") ⟨0, 7⟩).2.trace =
          exC3St.trace ++ [.evClose (⟨0, 7⟩ : Fi).fh]) ∧
    (∀ (st₂ : St) (qerr : Int) (resp : Content) (pwRet : Int) (c₂ : Content),
        IsDbfsFile (str "/srv/view") = true →
        alookup st₂.files (CalculateDumpPath (str "/srv/view")) = some c₂ →
        ∃ q e st₃, GetDmvFileContent st₂ (str "/srv/view") qerr resp pwRet = .ok (e, st₃) ∧
          sentQueries st₃.trace = sentQueries st₂.trace ++ [q]) :=
  C3_release_truncates exC3St (str "/srv/view") ⟨0, 7⟩
    (CalculateDumpPath (str "/srv/view")) (by decide)

/-! ## Claim C10 -/

theorem TruncateLocalImpl_fdTable (st : St) (path : Str) (size : Nat) :
    (TruncateLocalImpl st path size).2.fdTable = st.fdTable := by
  unfold TruncateLocalImpl
  cases hl : alookup st.files (CalculateDumpPath path) <;> simp [hl]

/-- Backing state for the C10 demonstration: descriptor 7 is live but the
backing file of `/srv/view` is missing, so the truncate step fails while
the close step succeeds. -/
def exC10St : St :=
  { files := [], fdTable := [(7, CalculateDumpPath (str "/srv/view"))],
    nextFd := 8, trace := [] }

/-- C10: the value `release` returns is determined solely by the final
`close` of the held descriptor — `0` when the descriptor is live and
`-EBADF` otherwise, for every state and path, because the truncate
result is compared against `-1` and then unconditionally overwritten by
the close result.  The second conjunct shows it concretely: on a
MetadataFile path whose backing file is missing the truncate step fails
with `-ENOENT`, yet `release` returns `0`. -/
theorem C10_release_result_from_close :
    (∀ (st : St) (path : Str) (fi : Fi),
        (ReleaseLocalImpl st path fi).1 =
          (if (alookup st.fdTable fi.fh).isSome = true then 0 else -errBadF)) ∧
    ((TruncateLocalImpl exC10St (str "/srv/view") 0).1 = -errNoEnt ∧
      IsDbfsFile (str "/srv/view") = true ∧
      (ReleaseLocalImpl exC10St (str "/srv/view") ⟨0, 7⟩).1 = 0) := by
  constructor
  · intro st path fi
    unfold ReleaseLocalImpl
    by_cases hdb : IsDbfsFile path = true
    · simp only [hdb, reduceIte]
      have hft := TruncateLocalImpl_fdTable st path 0
      unfold sysClose
      rw [hft]
      cases hl : alookup st.fdTable fi.fh <;> simp [hl]
    · simp only [Bool.not_eq_true] at hdb
      simp only [hdb, Bool.false_eq_true, reduceIte]
      unfold sysClose
      cases hl : alookup st.fdTable fi.fh <;> simp [hl]
  · exact ⟨by decide, by decide, by decide⟩

/-! ## Claim C9 -/

/-- A small passthrough state for the C9 evaluation: one ordinary backing
file, no live descriptors. -/
def exC9St : St :=
  { files := [(CalculateDumpPath (str "/srv"), [1, 2, 3])],
    fdTable := [], nextFd := 0, trace := [] }

/-- C9 fails on the code: when `read`, `write` or `fallocate` arrives
without a live handle (`fuse_file_info` is null), `GetFileDescriptorForPath`
evaluates `fi->flags` inside its `if (!fi)` branch — a null-pointer
dereference — instead of safely opening a short-lived descriptor with the
caller-supplied flags; the helper and all three operations built on it hit
undefined behaviour in the no-live-handle case (`/srv` is not a dbfs file,
so `write` reaches the helper too). -/
theorem C9_null_handle_dereference :
    GetFileDescriptorForPath exC9St (str "/srv") none = .ub .nullDeref ∧
    ReadLocalImpl exC9St (str "/srv") 3 0 none = .ub .nullDeref ∧
    IsDbfsFile (str "/srv") = false ∧
    WriteLocalImpl exC9St (str "/srv") [4] 0 none 1 = .ub .nullDeref ∧
    FallocateLocalImpl exC9St (str "/srv") 0 0 8 none = .ub .nullDeref := by decide

/-! ## Claim C8 -/

/-- C8 fails on the code: `InitializeSQLFs` calls `KillSelf()` on *every*
`mkdir` failure with no errno inspection, so when the backing root already
exists (`mkdir` fails with `EEXIST`) the process terminates instead of
proceeding; when the root does not yet exist, it is created and startup
proceeds. -/
theorem C8_init_kills_on_existing_root :
    InitializeSQLFs DUMP_ROOT id { dirs := [DUMP_ROOT] } = .killed ∧
    (sysMkdir { dirs := [DUMP_ROOT] } DUMP_ROOT).2.1 = errExist ∧
    InitializeSQLFs DUMP_ROOT id { dirs := [] } = .started { dirs := [DUMP_ROOT] } := by
  decide

/-! ## Claim C7 -/

/-- A stale backing directory holding one regular file, used to show the
C7 misdispatch destroying data of a non-custom-query directory. -/
def exC7Dir : DirSt := { backingFiles := [(str "old.txt", [1])], streamPos := 3 }

/-- C7 fails on the code: dispatch into the custom-query branch is the
substring test `strstr(path, CUSTOM_QUERY_FOLDER_NAME)`, not an equality
test on path segment 1.  The path `/srv/customQueriesX` is classified
`MetadataFile` by the spec's classifier (segment 1 merely *contains* the
reserved name), yet `OpendirLocalImpl` enters the custom-query
reconciliation: it deletes the directory's regular files and then dies on
its own assertion `strcmp(tokens[1], CUSTOM_QUERY_FOLDER_NAME) == 0`. -/
theorem C7_substring_dispatch :
    classify (str "/srv/customQueriesX") = .MetadataFile ∧
    (str "customQueriesX") ≠ CUSTOM_QUERY_FOLDER_NAME ∧
    strstrB (str "/srv/customQueriesX") CUSTOM_QUERY_FOLDER_NAME = true ∧
    OpendirLocalImpl (str "/srv/customQueriesX") true [str "a.sql"] exC7Dir =
      .ub .assertFailed { backingFiles := [], streamPos := 0 }
        [.evUnlink (str "old.txt"), .evRewind] := by decide

/-! ## Claim C4 -/

theorem classify_customQueryDir (path : Str) (h : classify path = .CustomQueryDir) :
    ∃ t0, Split path = [t0, CUSTOM_QUERY_FOLDER_NAME] := by
  unfold classify at h
  rcases hs : Split path with _ | ⟨a, _ | ⟨b, r⟩⟩ <;> rw [hs] at h
  · simp at h
  · simp at h
  · by_cases hb : b = CUSTOM_QUERY_FOLDER_NAME
    · subst hb
      by_cases hr : r.isEmpty
      · cases r with
        | nil => exact ⟨a, rfl⟩
        | cons x xs => simp at hr
      · simp [hr] at h
    · simp [hb] at h

/-- C4: after a successful `opendir` of a `CustomQueryDir` path, the
backing custom-query directory contains exactly one zero-length regular
file per entry of the server's custom-query source directory, every
previously present regular file having been deleted first (the unlink
events precede the creates), the stream has been rewound to position 0,
and the subsequent `readdir` observes exactly the just-synthesized
entries. -/
theorem C4_opendir_reconciles (path : Str)
    (hclass : classify path = .CustomQueryDir) :
    ∀ (d : DirSt) (sourceNames : List Str),
      OpendirLocalImpl path true sourceNames d =
        .ok 0 { backingFiles := sourceNames.map (fun nm => (nm, ([] : Content))),
                streamPos := 0 }
          (d.backingFiles.map (fun f => DirEv.evUnlink f.1) ++ [DirEv.evRewind] ++
            sourceNames.map DirEv.evCreate) ∧
      ReaddirLocalImpl { backingFiles := sourceNames.map (fun nm => (nm, ([] : Content))),
                         streamPos := 0 } = sourceNames := by
  obtain ⟨t0, hsp⟩ := classify_customQueryDir path hclass
  have hss : strstrB path CUSTOM_QUERY_FOLDER_NAME = true :=
    split_token_strstr path CUSTOM_QUERY_FOLDER_NAME (by rw [hsp]; simp)
  intro d sourceNames
  constructor
  · simp only [OpendirLocalImpl, hss, hsp, RemoveCustomQueriesOutputFiles, rewindDir,
      CreateCustomQueriesOutputFiles, reduceIte, if_true]
    simp
  · simp only [ReaddirLocalImpl, List.map_map, List.drop_zero]
    exact List.map_id sourceNames

/-- A stale backing custom-query directory for the C4 witness. -/
def exC4Dir : DirSt := { backingFiles := [(str "old.sql", [1, 2])], streamPos := 5 }

/-- Witness for `C4_opendir_reconciles` at `/srv1/customQueries` with a
stale `old.sql` in the backing directory and source files `a.sql`,
`b.sql`. -/
theorem C4_witness :
    OpendirLocalImpl (str "/srv1/customQueries") true [str "a.sql", str "b.sql"] exC4Dir =
      .ok 0 { backingFiles := [str "a.sql", str "b.sql"].map (fun nm => (nm, ([] : Content))),
              streamPos := 0 }
        (exC4Dir.backingFiles.map (fun f => DirEv.evUnlink f.1) ++ [DirEv.evRewind] ++
          [str "a.sql", str "b.sql"].map DirEv.evCreate) ∧
    ReaddirLocalImpl { backingFiles := [str "a.sql", str "b.sql"].map
                         (fun nm => (nm, ([] : Content))), streamPos := 0 } =
      [str "a.sql", str "b.sql"] :=
  C4_opendir_reconciles (str "/srv1/customQueries") (by decide) exC4Dir
    [str "a.sql", str "b.sql"]

/-! ## Claim C6 -/

/-- Error projection of an `OpenLocalImpl` result. -/
def openErrOf : Res (Int × Fi × St) → Option Int
  | .ok (e, _, _) => some e
  | .ub _ => none

/-- Stored-handle projection of an `OpenLocalImpl` result. -/
def openFhOf : Res (Int × Fi × St) → Option Int
  | .ok (_, f, _) => some f.fh
  | .ub _ => none

/-- Trace projection of an `OpenLocalImpl` result. -/
def openTraceOf : Res (Int × Fi × St) → Option (List Ev)
  | .ok (_, _, st) => some st.trace
  | .ub _ => none

/-- Backing-content projection of an `OpenLocalImpl` result. -/
def openFilesAt : Res (Int × Fi × St) → Str → Option (Option Content)
  | .ok (_, _, st), k => some (alookup st.files k)
  | .ub _, _ => none

theorem sysOpen_some (st : St) (p : Str) (h : (alookup st.files p).isSome = true) :
    sysOpen st p =
      ((st.nextFd : Int),
        { st with fdTable := ((st.nextFd : Int), p) :: st.fdTable,
                  nextFd := st.nextFd + 1,
                  trace := st.trace ++ [.evOpen p (st.nextFd : Int)] }) := by
  unfold sysOpen
  cases hl : alookup st.files p with
  | none => rw [hl] at h; simp at h
  | some c => rfl

/-- The server registry used by the C6 evaluation: server `srv` with a
configured custom-query source directory `/queries`. -/
def exC6Reg : List (Str × SrvInfo) :=
  [(str "srv", { m_hostname := str "h", m_username := str "u",
                 m_password := str "p", m_customQueriesPath := str "/queries" })]

/-- Backing store holding the placeholder output file of the custom query
`q1.sql`. -/
def exC6St : St :=
  { files := [(CalculateDumpPath (str "/srv/customQueries/q1.sql"), [])],
    fdTable := [], nextFd := 0, trace := [] }

/-- C6 fails on the code: `OpenLocalImpl` discards the result of
`ExecuteCustomQuery` (the call's value is never assigned), so when the
external custom-query collaborator fails (`cqRes = 9` here), `open` still
returns success (`0`); the trace shows the collaborator was invoked with
the real source path and the backing path. -/
theorem C6_counterexample :
    openErrOf (OpenLocalImpl exC6Reg exC6St (str "/srv/customQueries/q1.sql")
        ⟨0, 0⟩ 0 [] 0 9) = some 0 ∧
    (9 : Int) ≠ 0 ∧
    openTraceOf (OpenLocalImpl exC6Reg exC6St (str "/srv/customQueries/q1.sql")
        ⟨0, 0⟩ 0 [] 0 9) =
      some [.evOpen (CalculateDumpPath (str "/srv/customQueries/q1.sql")) 0,
            .evCustomQuery (str "/queries/q1.sql")
              (CalculateDumpPath (str "/srv/customQueries/q1.sql"))] := by decide

/-- C6 (amended): for every open of a `CustomQueryFile` path whose server
has a configured custom-query source directory, the external collaborator
is invoked with the source path `sourceDir/queryFileName` and the backing
path as output target, but its result is discarded: `open` returns
success (`0`) and keeps the descriptor open regardless of whether the
collaborator failed, for every collaborator outcome `cqRes`. -/
theorem C6_amended (reg : List (Str × SrvInfo)) (st : St) (path : Str) (fi : Fi)
    (qerr : Int) (resp : Content) (pwRet : Int) (t0 t2 : Str) (rest : List Str)
    (si : SrvInfo) (c : Content)
    (hsp : Split path = t0 :: CUSTOM_QUERY_FOLDER_NAME :: t2 :: rest)
    (hex : alookup st.files (CalculateDumpPath path) = some c)
    (hreg : GetServerInfo reg t0 = some si)
    (hcq : si.m_customQueriesPath ≠ []) :
    ∀ cqRes : Int,
      OpenLocalImpl reg st path fi qerr resp pwRet cqRes =
        .ok (0, { fi with fh := (st.nextFd : Int) },
          { st with fdTable := ((st.nextFd : Int), CalculateDumpPath path) :: st.fdTable,
                    nextFd := st.nextFd + 1,
                    trace := st.trace ++
                      [.evOpen (CalculateDumpPath path) (st.nextFd : Int),
                       .evCustomQuery (si.m_customQueriesPath ++ str "/" ++ t2)
                         (CalculateDumpPath path)] }) := by
  intro cqRes
  have hdb : IsDbfsFile path = true := by
    unfold IsDbfsFile classify
    rw [hsp]
    simp
  have hss : strstrB path CUSTOM_QUERY_FOLDER_NAME = true :=
    split_token_strstr path CUSTOM_QUERY_FOLDER_NAME (by rw [hsp]; simp)
  have hex' : (alookup st.files (CalculateDumpPath path)).isSome = true := by
    rw [hex]; rfl
  have hreg' : alookup reg t0 = some si := hreg
  simp only [OpenLocalImpl, sysOpen_some st (CalculateDumpPath path) hex',
    natCast_ne_negOne, reduceIte, hdb, hss, hsp, if_pos rfl, GetServerInfo, hreg',
    openFinish]
  rw [if_pos hcq]
  simp

/-- The server record of `exC6Reg`, spelled out for the C6 witness. -/
def exC6Srv : SrvInfo :=
  { m_hostname := str "h", m_username := str "u",
    m_password := str "p", m_customQueriesPath := str "/queries" }

/-- Witness for `C6_amended` at the CustomQueryFile path
`/srv/customQueries/q1.sql` with a failing collaborator (`cqRes = 9`). -/
theorem C6_witness :
      OpenLocalImpl exC6Reg exC6St (str "/srv/customQueries/q1.sql") ⟨0, 0⟩ 0 [] 0 9 =
        .ok (0, { (⟨0, 0⟩ : Fi) with fh := (exC6St.nextFd : Int) },
          { exC6St with
              fdTable := ((exC6St.nextFd : Int),
                CalculateDumpPath (str "/srv/customQueries/q1.sql")) :: exC6St.fdTable,
              nextFd := exC6St.nextFd + 1,
              trace := exC6St.trace ++
                [.evOpen (CalculateDumpPath (str "/srv/customQueries/q1.sql"))
                    (exC6St.nextFd : Int),
                 .evCustomQuery (exC6Srv.m_customQueriesPath ++ str "/" ++ str "q1.sql")
                   (CalculateDumpPath (str "/srv/customQueries/q1.sql"))] }) :=
  C6_amended exC6Reg exC6St (str "/srv/customQueries/q1.sql") ⟨0, 0⟩ 0 [] 0
    (str "srv") (str "q1.sql") [] exC6Srv [] (by decide) (by decide) (by decide)
    (by decide) 9

/-! ## Claim C5 -/

/-- Backing store for the C5 evaluations: the metadata file `/srv/view`
has an empty backing object. -/
def exC5St : St :=
  { files := [(CalculateDumpPath (str "/srv/view"), [])],
    fdTable := [], nextFd := 0, trace := [] }

/-- C5's equivalence fails on the code: `GetDmvFileContent` checks only
`pwrite(...) == -1`, so a short write (kernel consumes 2 of the 4
response bytes, `pwRet = 2`) leaves `open` returning success while the
backing file holds only a prefix of the query response — `open` succeeded
without the full response having been written. -/
theorem C5_counterexample :
    openErrOf (OpenLocalImpl [] exC5St (str "/srv/view") ⟨0, 0⟩ 0 [7, 7, 7, 7] 2 0) =
      some 0 ∧
    openFilesAt (OpenLocalImpl [] exC5St (str "/srv/view") ⟨0, 0⟩ 0 [7, 7, 7, 7] 2 0)
        (CalculateDumpPath (str "/srv/view")) = some (some [7, 7]) ∧
    ([7, 7] : Content) ≠ [7, 7, 7, 7] := by decide

/-- C5 (amended): for every open of a MetadataFile path with an existing
backing object, if the remote query execution fails (`qerr ≠ 0`) then
`open` fails with that error, both backing descriptors opened during the
call are closed before the error is returned (the two close events are in
the trace and the descriptor table is restored), and the stored handle is
cleared to `-1`; moreover `open` succeeds exactly when the query succeeded
and `pwrite` did not report failure — a *short* write is not detected, so
success does not guarantee that the full response was materialized. -/
theorem C5_amended (reg : List (Str × SrvInfo)) (st : St) (path s n : Str)
    (rest : List Str) (fi : Fi) (qerr : Int) (resp : Content) (pwRet : Int)
    (cqRes : Int) (c : Content)
    (hsp : Split path = s :: n :: rest)
    (hmf : classify path = .MetadataFile)
    (hss : strstrB path CUSTOM_QUERY_FOLDER_NAME = false)
    (hex : alookup st.files (CalculateDumpPath path) = some c) :
    ∃ e fi' st', OpenLocalImpl reg st path fi qerr resp pwRet cqRes = .ok (e, fi', st') ∧
      (qerr ≠ 0 → e = qerr ∧ fi'.fh = -1 ∧ st'.fdTable = st.fdTable ∧
        st'.trace = st.trace ++
          [.evOpen (CalculateDumpPath path) (st.nextFd : Int),
           .evOpen (CalculateDumpPath path) ((st.nextFd + 1 : Nat) : Int),
           .evQuery (dmvQueryOfFilename n).1,
           .evClose ((st.nextFd + 1 : Nat) : Int),
           .evClose (st.nextFd : Int)]) ∧
      (e = 0 ↔ qerr = 0 ∧ pwRet ≠ -1) := by
  have hdb : IsDbfsFile path = true := by
    unfold IsDbfsFile
    rw [hmf]
  have hex' : (alookup st.files (CalculateDumpPath path)).isSome = true := by
    rw [hex]; rfl
  simp only [OpenLocalImpl, GetDmvFileContent, sysOpen_some, hex', natCast_ne_negOne,
    reduceIte, hdb, hss, hsp, Option.isSome_some, Bool.false_eq_true, if_false]
  by_cases hq : qerr = 0
  · subst hq
    by_cases hpw : pwRet = -1
    · subst hpw
      simp only [sysPwrite, sysClose_isSome, alookup_cons_self, aerase_cons_self,
        Option.isSome_some, reduceIte, openFinish]
      refine ⟨_, _, _, rfl, ?_, ?_⟩
      · intro hqq
        exact absurd rfl hqq
      · constructor
        · intro h
          exact absurd h (by decide)
        · rintro ⟨-, h⟩
          exact absurd rfl h
    · simp only [sysPwrite, sysClose_isSome, alookup_cons_self, aerase_cons_self,
        Option.isSome_some, reduceIte, if_neg hpw, hex, natCast_ne_negOne, openFinish]
      refine ⟨_, _, _, rfl, ?_, ?_⟩
      · intro hqq
        exact absurd rfl hqq
      · simp [hpw]
  · simp only [sysClose_isSome, alookup_cons_self, aerase_cons_self,
      Option.isSome_some, reduceIte, if_neg hq, openFinish]
    simp only [ne_eq, hq, not_false_eq_true, natCast_ne_negOne, and_self, if_true,
      sysClose_isSome, alookup_cons_self, aerase_cons_self, Option.isSome_some,
      reduceIte]
    refine ⟨_, _, _, rfl, ?_, ?_⟩
    · intro hqq
      exact ⟨rfl, rfl, by simp [aerase_cons_self], by simp⟩
    · simp [hq]

/-- Witness for `C5_amended` at `/srv/view` with a failing query
(`qerr = 3`). -/
theorem C5_witness :
    ∃ e fi' st', OpenLocalImpl [] exC5St (str "/srv/view") ⟨0, 0⟩ 3 [] 0 0 =
        .ok (e, fi', st') ∧
      ((3 : Int) ≠ 0 → e = 3 ∧ fi'.fh = -1 ∧ st'.fdTable = exC5St.fdTable ∧
        st'.trace = exC5St.trace ++
          [.evOpen (CalculateDumpPath (str "/srv/view")) (exC5St.nextFd : Int),
           .evOpen (CalculateDumpPath (str "/srv/view")) ((exC5St.nextFd + 1 : Nat) : Int),
           .evQuery (dmvQueryOfFilename (str "view")).1,
           .evClose ((exC5St.nextFd + 1 : Nat) : Int),
           .evClose (exC5St.nextFd : Int)]) ∧
      (e = 0 ↔ (3 : Int) = 0 ∧ (0 : Int) ≠ -1) :=
  C5_amended [] exC5St (str "/srv/view") (str "srv") (str "view") [] ⟨0, 0⟩ 3 [] 0 0 []
    (by decide) (by decide) (by decide) (by decide)
